import Mathlib

/-!
Shallow embedding of the review-widget mutation orchestration
(`EditUserResourceReview` / `EditUserResourceReviewV2`), the SSR props
builder (`createServerSideProps`), and the articles-sitemap handler,
with theorems settling the specification's claims about them.
-/

namespace ReviewWidget

/-- The review entity (`ResourceReviewModel`): identifier, nullable rating,
nullable free-text details. Fields not consulted by the embedded logic
(timestamps, parent-version reference) are omitted. -/
structure ReviewEntity where
  id : Nat
  rating : Option Int
  details : Option String
  deriving Repr, DecidableEq

/-- Form state owned by the form controller: the current `details` field
value and the baseline established by the last `reset`. -/
structure FormState where
  value : String
  baseline : String
  deriving Repr, DecidableEq

/-- `form.formState.isDirty`: current values differ from the last-reset
baseline. -/
def FormState.isDirty (f : FormState) : Bool := f.value != f.baseline

/-- `form.reset({ details: d })`: replaces the current value and the
baseline with `d`. -/
def FormState.resetTo (d : String) : FormState := { value := d, baseline := d }

/-- Per-instance widget state: the `editDetail` toggle (comment editor
expanded), the form state, the cached review entity, and the immutable
`modelId` / `modelVersionId` props. -/
structure WidgetState where
  editDetail : Bool
  form : FormState
  resourceReview : Option ReviewEntity
  modelId : Nat
  modelVersionId : Nat
  deriving Repr, DecidableEq

/-- Payload of `createMutation.mutate` in `createReviewWithRating`. -/
structure CreatePayload where
  modelVersionId : Nat
  modelId : Nat
  rating : Int
  recommended : Bool
  deriving Repr, DecidableEq

/-- Payload of `updateMutation.mutate` in `updateReview`: `rating` and
`details` are each present or `undefined`. -/
structure UpdatePayload where
  id : Nat
  rating : Option Int
  details : Option String
  deriving Repr, DecidableEq

/-- A mutation-client call issued by the widget. -/
inductive MutationCall where
  | create (payload : CreatePayload)
  | update (payload : UpdatePayload)
  deriving Repr, DecidableEq

/-- JavaScript truthiness of `resourceReview?.id`: `undefined` when the
review is absent, the numeric id otherwise (falsy exactly at 0). -/
def hasReviewId : Option ReviewEntity → Bool
  | none => false
  | some r => r.id != 0

/-- JavaScript truthiness of an optional string (`request.details`):
falsy when `undefined` or the empty string. -/
def strTruthy : Option String → Bool
  | none => false
  | some s => s != ""

/-- `toggleEditDetail`: flips the expanded flag. (The 100ms focus delay
is a rendering side effect with no bearing on state and is not modelled.) -/
def toggleEditDetail (s : WidgetState) : WidgetState :=
  { s with editDetail := !s.editDetail }

/-- `createReviewWithRating(rating)`: one create call whose payload carries
the version id, model id, the rating, and `recommended: rating >= 3`. -/
def createReviewWithRating (s : WidgetState) (rating : Int) :
    WidgetState × List MutationCall :=
  (s, [MutationCall.create
        { modelVersionId := s.modelVersionId, modelId := s.modelId,
          rating := rating, recommended := decide (3 ≤ rating) }])

/-- `updateReview({ rating, details })`: returns unchanged with no call when
no review entity is cached; otherwise issues one update call with the
entity's id and exactly the supplied fields. The `onSuccess` callback is
modelled separately by `updateOnSuccess`. -/
def updateReview (s : WidgetState) (rating : Option Int)
    (details : Option String) : WidgetState × List MutationCall :=
  match s.resourceReview with
  | none => (s, [])
  | some rr =>
      (s, [MutationCall.update { id := rr.id, rating := rating, details := details }])

/-- The `onSuccess` handler installed by `updateReview`: when the request
payload's `details` is truthy, toggles the comment editor and resets the
form to the submitted details; otherwise does nothing. Identical in the V1
component (lines 66-71) and the V2 component (lines 251-256). -/
def updateOnSuccess (s : WidgetState) (request : UpdatePayload) : WidgetState :=
  if strTruthy request.details then
    { (toggleEditDetail s) with form := FormState.resetTo (request.details.getD "") }
  else s

/-- `handleSubmit({ details })`: a details-only update. -/
def handleSubmit (s : WidgetState) (details : Option String) :
    WidgetState × List MutationCall :=
  updateReview s none details

/-- `handleRatingChange(rating)`: create when `!resourceReview?.id`
(review absent, or its id falsy), otherwise a rating-only update. -/
def handleRatingChange (s : WidgetState) (rating : Int) :
    WidgetState × List MutationCall :=
  if !hasReviewId s.resourceReview then createReviewWithRating s rating
  else updateReview s (some rating) none

/-- A manual form submission: the form controller validates the current
values against the schema (`details` an optional string, which always
accepts the current string value) and invokes `handleSubmit` with them. -/
def formSubmit (s : WidgetState) : WidgetState × List MutationCall :=
  handleSubmit s (some s.form.value)

/-- `save()` from the imperative handle: submits the form if and only if
the form state is dirty. -/
def save (s : WidgetState) : WidgetState × List MutationCall :=
  if s.form.isDirty then formSubmit s else (s, [])

/-- The state reached after a details-only submission of the current form
value succeeds: the update call's `onSuccess` runs with the request payload
that was sent. When no review entity is cached, `updateReview` bailed out
and no call (hence no success) occurs. -/
def submitAndSucceed (s : WidgetState) : WidgetState :=
  match s.resourceReview with
  | none => s
  | some rr =>
      updateOnSuccess s { id := rr.id, rating := none, details := some s.form.value }

/-- `resourceReview?.details ?? ''`: the details string the resync effect
resets the form to. -/
def entityDetails (rr : Option ReviewEntity) : String :=
  (rr.bind ReviewEntity.details).getD ""

/-- The `useEffect` keyed on `resourceReview?.details` (V1 lines 86-88, V2
lines 268-270): when the entity's details change externally, the widget
re-renders with the new entity and the effect resets the form to the new
details (empty string when absent). -/
def externalDetailsChange (s : WidgetState) (newReview : Option ReviewEntity) :
    WidgetState :=
  { s with resourceReview := newReview,
           form := FormState.resetTo (entityDetails newReview) }

end ReviewWidget

namespace ReviewWidget

/-- A form freshly reset to `d` is never dirty. -/
theorem FormState.resetTo_isDirty (d : String) :
    (FormState.resetTo d).isDirty = false := by
  simp [FormState.isDirty, FormState.resetTo]

/-- C1: when the viewer has no prior review entity, `onRatingChange(r)`
issues exactly one create call carrying the model version id, the model id,
the rating `r`, and `recommended = (r >= 3)`; no update call is issued. -/
theorem ratingChange_noReview_creates (s : WidgetState) (r : Int)
    (h : s.resourceReview = none) :
    handleRatingChange s r =
      (s, [MutationCall.create
            { modelVersionId := s.modelVersionId, modelId := s.modelId,
              rating := r, recommended := decide (3 ≤ r) }]) := by
  simp [handleRatingChange, hasReviewId, h, createReviewWithRating]

/-- C1 witness: a concrete reviewless state at rating 4. -/
theorem ratingChange_noReview_creates_witness :
    handleRatingChange
        { editDetail := false, form := FormState.resetTo "", resourceReview := none,
          modelId := 7, modelVersionId := 21 } 4 =
      ({ editDetail := false, form := FormState.resetTo "", resourceReview := none,
         modelId := 7, modelVersionId := 21 },
       [MutationCall.create
          { modelVersionId := 21, modelId := 7, rating := 4, recommended := true }]) := by
  have := ratingChange_noReview_creates
      { editDetail := false, form := FormState.resetTo "", resourceReview := none,
        modelId := 7, modelVersionId := 21 } 4 rfl
  simpa using this

/-- C3: when a prior review entity (with its review id, per the code's
`!resourceReview?.id` guard) exists, `onRatingChange(r)` issues exactly one
update call carrying only the rating (`details` absent), and no create. -/
theorem ratingChange_withReview_updates (s : WidgetState) (r : Int)
    (rr : ReviewEntity) (hsome : s.resourceReview = some rr) (hid : rr.id ≠ 0) :
    handleRatingChange s r =
      (s, [MutationCall.update { id := rr.id, rating := some r, details := none }]) := by
  simp [handleRatingChange, hasReviewId, hsome, hid, updateReview]

/-- C3 witness: a concrete state holding review id 5, rating changed to 2. -/
theorem ratingChange_withReview_updates_witness :
    handleRatingChange
        { editDetail := false, form := FormState.resetTo "", modelId := 7,
          modelVersionId := 21,
          resourceReview := some { id := 5, rating := some 4, details := none } } 2 =
      ({ editDetail := false, form := FormState.resetTo "", modelId := 7,
         modelVersionId := 21,
         resourceReview := some { id := 5, rating := some 4, details := none } },
       [MutationCall.update { id := 5, rating := some 2, details := none }]) := by
  have := ratingChange_withReview_updates
      { editDetail := false, form := FormState.resetTo "", modelId := 7,
        modelVersionId := 21,
        resourceReview := some { id := 5, rating := some 4, details := none } } 2
      { id := 5, rating := some 4, details := none } rfl (by decide)
  simpa using this

/-- C2 counterexample: the success handler tests JavaScript truthiness of
`request.details`, so a successful submit of an *empty* details string —
whose payload does carry a details field — neither resets the form nor
toggles the editor: the dirty flag stays true and the editor stays open. -/
theorem submitSuccess_emptyDetails_counterexample :
    (submitAndSucceed
        { editDetail := true, form := { value := "", baseline := "great" },
          modelId := 7, modelVersionId := 21,
          resourceReview := some { id := 5, rating := some 4, details := some "great" } }).form.isDirty
        = true ∧
    (submitAndSucceed
        { editDetail := true, form := { value := "", baseline := "great" },
          modelId := 7, modelVersionId := 21,
          resourceReview := some { id := 5, rating := some 4, details := some "great" } }).editDetail
        = true := by
  constructor <;> rfl

/-- C2 (amended): after a successful update via the submit path whose
submitted details value is truthy (nonempty), the form is reset to the
submitted value — so the dirty flag becomes false — and the expanded flag
is toggled exactly once (collapsing the editor whenever it was open). -/
theorem submitSuccess_resets_and_toggles (s : WidgetState) (rr : ReviewEntity)
    (hsome : s.resourceReview = some rr) (hne : s.form.value ≠ "") :
    (submitAndSucceed s).form = FormState.resetTo s.form.value ∧
    (submitAndSucceed s).form.isDirty = false ∧
    (submitAndSucceed s).editDetail = !s.editDetail := by
  have hstep : submitAndSucceed s =
      { (toggleEditDetail s) with form := FormState.resetTo s.form.value } := by
    simp [submitAndSucceed, hsome, updateOnSuccess, strTruthy, hne]
  refine ⟨by simp [hstep], ?_, by simp [hstep, toggleEditDetail]⟩
  simp [hstep, FormState.resetTo_isDirty]

/-- C2 witness: a dirty nonempty edit over review id 5 is saved; the form
resets to the submitted text and the open editor collapses. -/
theorem submitSuccess_resets_and_toggles_witness :
    (submitAndSucceed
        { editDetail := true, form := { value := "nice", baseline := "great" },
          modelId := 7, modelVersionId := 21,
          resourceReview := some { id := 5, rating := some 4, details := some "great" } }).form
        = FormState.resetTo "nice" ∧
    (submitAndSucceed
        { editDetail := true, form := { value := "nice", baseline := "great" },
          modelId := 7, modelVersionId := 21,
          resourceReview := some { id := 5, rating := some 4, details := some "great" } }).form.isDirty
        = false ∧
    (submitAndSucceed
        { editDetail := true, form := { value := "nice", baseline := "great" },
          modelId := 7, modelVersionId := 21,
          resourceReview := some { id := 5, rating := some 4, details := some "great" } }).editDetail
        = false := by
  have := submitSuccess_resets_and_toggles
      { editDetail := true, form := { value := "nice", baseline := "great" },
        modelId := 7, modelVersionId := 21,
        resourceReview := some { id := 5, rating := some 4, details := some "great" } }
      { id := 5, rating := some 4, details := some "great" } rfl (by decide)
  simpa using this

/-- C4: `save()` through the imperative handle is a no-op (state unchanged,
no call) when the form is not dirty; when dirty it performs exactly the
manual form submission with the current field values — one update call
carrying the current details whenever a review entity is cached. -/
theorem save_spec (s : WidgetState) :
    (s.form.isDirty = false → save s = (s, [])) ∧
    (s.form.isDirty = true →
      save s = formSubmit s ∧
      ∀ rr, s.resourceReview = some rr →
        (save s).2 =
          [MutationCall.update { id := rr.id, rating := none, details := some s.form.value }]) := by
  constructor
  · intro h
    simp [save, h]
  · intro h
    refine ⟨by simp [save, h], ?_⟩
    intro rr hrr
    simp [save, h, formSubmit, handleSubmit, updateReview, hrr]

/-- C4 witness: dirty and clean concrete states; save submits exactly one
details update on the first and does nothing on the second. -/
theorem save_spec_witness :
    (save { editDetail := true, form := { value := "new", baseline := "old" },
            modelId := 7, modelVersionId := 21,
            resourceReview := some { id := 5, rating := some 4, details := some "old" } }).2
      = [MutationCall.update { id := 5, rating := none, details := some "new" }] ∧
    save { editDetail := true, form := { value := "old", baseline := "old" },
           modelId := 7, modelVersionId := 21,
           resourceReview := some { id := 5, rating := some 4, details := some "old" } }
      = ({ editDetail := true, form := { value := "old", baseline := "old" },
           modelId := 7, modelVersionId := 21,
           resourceReview := some { id := 5, rating := some 4, details := some "old" } }, []) := by
  constructor
  · exact ((save_spec
        { editDetail := true, form := { value := "new", baseline := "old" },
          modelId := 7, modelVersionId := 21,
          resourceReview := some { id := 5, rating := some 4, details := some "old" } }).2
        (by decide)).2 { id := 5, rating := some 4, details := some "old" } rfl
  · exact (save_spec
        { editDetail := true, form := { value := "old", baseline := "old" },
          modelId := 7, modelVersionId := 21,
          resourceReview := some { id := 5, rating := some 4, details := some "old" } }).1
        (by decide)

/-- C5: whenever the entity's details change externally, the resync effect
resets the form to the entity's new details (empty string when absent),
discarding any local edit: the resulting form equals the fresh baseline and
is never dirty, for every prior local edit state. -/
theorem externalChange_serverWins (s : WidgetState) (newReview : Option ReviewEntity) :
    (externalDetailsChange s newReview).form
        = FormState.resetTo (entityDetails newReview) ∧
    (externalDetailsChange s newReview).form.isDirty = false := by
  refine ⟨rfl, ?_⟩
  simp [externalDetailsChange, FormState.resetTo_isDirty]

end ReviewWidget

namespace SSR

/-- The `prefetch` option of `createServerSideProps` (default `'once'`). -/
inductive Prefetch where
  | once
  | always
  deriving Repr, DecidableEq

/-- The recognized options of `createServerSideProps`. In the source
`useSSG` is optional (undefined is falsy) and `useSession` defaults to
`false`; both are modelled as plain booleans. -/
structure SSRConfig where
  useSSG : Bool
  useSession : Bool
  prefetch : Prefetch
  deriving Repr, DecidableEq

/-- The parts of the incoming request the handler consults: `req.url`
(optional) and a session possibly attached by upstream middleware. The
source reads the attached session with `??`, which conflates an absent and
a null attachment, so a single `Option` models it. Sessions themselves are
opaque to this layer and modelled as numeric identities. -/
structure Req where
  url : Option String
  session : Option Nat
  deriving Repr, DecidableEq

/-- `context.req.url?.startsWith('/_next/data') ?? false`: JavaScript
`startsWith` is a prefix test on the character sequence, embedded here over
the strings' character lists. -/
def isClientOf (req : Req) : Bool :=
  (req.url.map (fun u => List.isPrefixOf "/_next/data".data u.data)).getD false

/-- The per-request environment: the request plus the results the external
collaborators would produce — `getServerAuthSession` (possibly null) and
the serialized snapshot `ssg.dehydrate()` would yield if a prefetch context
is built. Feature-flag resolution is external and not inspected by any
claim, so it is not modelled. -/
structure SSRInput where
  req : Req
  authSession : Option Nat
  dehydrated : Nat
  deriving Repr, DecidableEq

/-- `(context.req as any)['session'] ?? (useSession ? await
getServerAuthSession(context) : null)`. -/
def sessionOf (cfg : SSRConfig) (input : SSRInput) : Option Nat :=
  match input.req.session with
  | some s => some s
  | none => if cfg.useSession then input.authSession else none

/-- The guard `useSSG && (prefetch === 'always' || !isClient)` deciding
whether the prefetch context is constructed. -/
def ssgBuilt (cfg : SSRConfig) (isClient : Bool) : Bool :=
  cfg.useSSG && (cfg.prefetch == Prefetch.always || !isClient)

/-- The prefetch context the handler builds: the dehydrated snapshot when
the `ssgBuilt` guard holds, nothing otherwise. -/
def builtSsg (cfg : SSRConfig) (input : SSRInput) : Option Nat :=
  if ssgBuilt cfg (isClientOf input.req) then some input.dehydrated else none

/-- A JavaScript value stored in a props object. -/
inductive Val where
  | null
  | num (n : Int)
  | str (s : String)
  | session (s : Option Nat)
  | snapshot (d : Nat)
  deriving Repr, DecidableEq

/-- A JavaScript object literal built by spreads: a list of bindings in
which a later binding for the same key overrides an earlier one. -/
abbrev Obj := List (String × Val)

/-- Property lookup with JavaScript spread semantics: the last binding of
the key wins. -/
def Obj.get : Obj → String → Option Val
  | [], _ => none
  | kv :: rest, k =>
      match Obj.get rest k with
      | some v => some v
      | none => if kv.1 == k then some kv.2 else none

/-- The argument object the handler passes to the caller's resolver:
`{ ctx, isClient, ssg, session, features }` (features omitted as an
external opaque value). -/
structure ResolverCtx where
  req : Req
  isClient : Bool
  ssg : Option Nat
  session : Option Nat
  deriving Repr, DecidableEq

/-- The resolver's result object (`GetPropsFnResult`): an optional redirect
outcome, a not-found outcome, and optional page props. A void resolver
result is `none` at the call site. -/
structure ResolverOut where
  redirect : Option String
  notFound : Bool
  props : Option Obj
  deriving Repr, DecidableEq

/-- The resolver context the handler constructs for a given request. -/
def resolverCtxOf (cfg : SSRConfig) (input : SSRInput) : ResolverCtx :=
  { req := input.req, isClient := isClientOf input.req,
    ssg := builtSsg cfg input, session := sessionOf cfg input }

/-- The final props object: `{ session, ...(props ?? {}), ...(ssg ?
{ trpcState: ssg.dehydrate() } : {}) }`. -/
def mergedProps (session : Option Nat) (ssg : Option Nat) (props : Option Obj) : Obj :=
  [("session", Val.session session)] ++ props.getD [] ++
    (match ssg with
     | some d => [("trpcState", Val.snapshot d)]
     | none => [])

/-- The handler's output: a redirect, a not-found, or a props object. -/
inductive SSRResult where
  | redirect (r : String)
  | notFound
  | props (p : Obj)
  deriving Repr, DecidableEq

/-- The request handler produced by `createServerSideProps`: computes
`isClient`, resolves the session, conditionally builds the prefetch
context, invokes the resolver, short-circuits on a truthy redirect or
not-found outcome, and otherwise returns the merged props. -/
def createServerSideProps (cfg : SSRConfig)
    (resolver : ResolverCtx → Option ResolverOut) (input : SSRInput) : SSRResult :=
  let session := sessionOf cfg input
  let ssg := builtSsg cfg input
  match resolver (resolverCtxOf cfg input) with
  | none => SSRResult.props (mergedProps session ssg none)
  | some r =>
      match r.redirect with
      | some rd => SSRResult.redirect rd
      | none =>
          if r.notFound then SSRResult.notFound
          else SSRResult.props (mergedProps session ssg r.props)

/-- The caller-supplied props bindings of a resolver result (empty for a
void result or when no props were returned). -/
def callerProps : Option ResolverOut → Obj
  | none => []
  | some r => r.props.getD []

/-- Lookup distributes over concatenated bindings: the later list wins. -/
theorem Obj.get_append (l₁ l₂ : Obj) (k : String) :
    Obj.get (l₁ ++ l₂) k =
      match Obj.get l₂ k with
      | some v => some v
      | none => Obj.get l₁ k := by
  induction l₁ with
  | nil =>
      cases h : Obj.get l₂ k <;> simp [Obj.get, h]
  | cons kv rest ih =>
      show (match Obj.get (rest ++ l₂) k with
            | some v => some v
            | none => if kv.1 == k then some kv.2 else none) =
          match Obj.get l₂ k with
          | some v => some v
          | none =>
              match Obj.get rest k with
              | some v => some v
              | none => if kv.1 == k then some kv.2 else none
      rw [ih]
      cases Obj.get l₂ k <;> rfl

/-- The reserved `trpcState` binding is appended last, so it never carries a
`session` binding; when the caller props hold none either, the `session`
binding placed first is the one found. -/
theorem mergedProps_get_session (session ssg : Option Nat) (props : Option Obj)
    (h : Obj.get (props.getD []) "session" = none) :
    Obj.get (mergedProps session ssg props) "session" = some (Val.session session) := by
  have htail :
      Obj.get (match ssg with
               | some d => [("trpcState", Val.snapshot d)]
               | none => ([] : Obj)) "session" = none := by
    cases ssg <;> simp [Obj.get]
  unfold mergedProps
  rw [Obj.get_append]
  simp only [htail]
  rw [Obj.get_append]
  simp only [h]
  simp [Obj.get]

/-- The reserved `trpcState` binding is spread last, so its snapshot always
survives the merge. -/
theorem mergedProps_get_snap (session : Option Nat) (d : Nat) (props : Option Obj) :
    Obj.get (mergedProps session (some d) props) "trpcState"
      = some (Val.snapshot d) := by
  unfold mergedProps
  rw [Obj.get_append]
  simp [Obj.get]

end SSR

namespace SSR

/-- C6 counterexample: with `useSSG` unset, `prefetch: 'always'` does not
make the handler construct a prefetch context — the guard is
`useSSG && (...)`, so the output carries no `trpcState` snapshot. -/
theorem prefetch_always_counterexample :
    ssgBuilt { useSSG := false, useSession := false, prefetch := Prefetch.always }
        (isClientOf { url := some "/models", session := none }) = false ∧
    createServerSideProps { useSSG := false, useSession := false, prefetch := Prefetch.always }
        (fun _ => none)
        { req := { url := some "/models", session := none }, authSession := none,
          dehydrated := 9 }
      = SSRResult.props [("session", Val.session none)] := by
  exact ⟨by decide, rfl⟩

/-- C6 (amended): with `prefetch: 'once'`, no prefetch context reaches the
resolver when the request path matches the soft-navigation convention; with
`prefetch: 'always'` — provided `useSSG` is set — the prefetch context is
constructed regardless of whether the request is a soft navigation. -/
theorem prefetch_once_vs_always (cfg : SSRConfig) (input : SSRInput) :
    (cfg.prefetch = Prefetch.once → isClientOf input.req = true →
      (resolverCtxOf cfg input).ssg = none) ∧
    (cfg.useSSG = true → cfg.prefetch = Prefetch.always →
      (resolverCtxOf cfg input).ssg = some input.dehydrated) := by
  constructor
  · intro hp hc
    simp [resolverCtxOf, builtSsg, ssgBuilt, hp, hc]
  · intro hg hp
    simp [resolverCtxOf, builtSsg, ssgBuilt, hg, hp]

/-- C6 witness: a soft-navigation request under `'once'` gets no context;
the same request under `'always'` gets the snapshot. -/
theorem prefetch_once_vs_always_witness :
    (resolverCtxOf { useSSG := true, useSession := false, prefetch := Prefetch.once }
        { req := { url := some "/_next/data/build/models.json", session := none },
          authSession := none, dehydrated := 9 }).ssg = none ∧
    (resolverCtxOf { useSSG := true, useSession := false, prefetch := Prefetch.always }
        { req := { url := some "/_next/data/build/models.json", session := none },
          authSession := none, dehydrated := 9 }).ssg = some 9 := by
  constructor
  · exact (prefetch_once_vs_always
        { useSSG := true, useSession := false, prefetch := Prefetch.once }
        { req := { url := some "/_next/data/build/models.json", session := none },
          authSession := none, dehydrated := 9 }).1 rfl (by decide)
  · exact (prefetch_once_vs_always
        { useSSG := true, useSession := false, prefetch := Prefetch.always }
        { req := { url := some "/_next/data/build/models.json", session := none },
          authSession := none, dehydrated := 9 }).2 rfl rfl

/-- C7: a redirect outcome from the resolver makes the handler return
exactly the redirect result — no props object, no prefetch snapshot — and a
not-found outcome likewise returns exactly the not-found result. -/
theorem terminal_outcomes_short_circuit (cfg : SSRConfig)
    (resolver : ResolverCtx → Option ResolverOut) (input : SSRInput)
    (r : ResolverOut) (hres : resolver (resolverCtxOf cfg input) = some r) :
    (∀ rd, r.redirect = some rd →
      createServerSideProps cfg resolver input = SSRResult.redirect rd) ∧
    (r.redirect = none → r.notFound = true →
      createServerSideProps cfg resolver input = SSRResult.notFound) := by
  constructor
  · intro rd hrd
    simp [createServerSideProps, hres, hrd]
  · intro h1 h2
    simp [createServerSideProps, hres, h1, h2]

/-- C7 witness: a resolver that redirects to `/login` short-circuits, and a
resolver that signals not-found short-circuits. -/
theorem terminal_outcomes_short_circuit_witness :
    createServerSideProps { useSSG := true, useSession := true, prefetch := Prefetch.once }
        (fun _ => some { redirect := some "/login", notFound := false,
                         props := some [("foo", Val.num 1)] })
        { req := { url := none, session := some 2 }, authSession := none, dehydrated := 4 }
      = SSRResult.redirect "/login" ∧
    createServerSideProps { useSSG := true, useSession := true, prefetch := Prefetch.once }
        (fun _ => some { redirect := none, notFound := true, props := none })
        { req := { url := none, session := some 2 }, authSession := none, dehydrated := 4 }
      = SSRResult.notFound := by
  constructor
  · exact (terminal_outcomes_short_circuit
        { useSSG := true, useSession := true, prefetch := Prefetch.once }
        (fun _ => some { redirect := some "/login", notFound := false,
                         props := some [("foo", Val.num 1)] })
        { req := { url := none, session := some 2 }, authSession := none, dehydrated := 4 }
        { redirect := some "/login", notFound := false,
          props := some [("foo", Val.num 1)] } rfl).1 "/login" rfl
  · exact (terminal_outcomes_short_circuit
        { useSSG := true, useSession := true, prefetch := Prefetch.once }
        (fun _ => some { redirect := none, notFound := true, props := none })
        { req := { url := none, session := some 2 }, authSession := none, dehydrated := 4 }
        { redirect := none, notFound := true, props := none } rfl).2 rfl rfl

/-- C8 counterexample: the final object is `{ session, ...props }`, so a
resolver whose props bind their own `session` key overrides the computed
session — the final props object does not contain the session the handler
resolved (here `some 5` from the session resolver), but the caller's null. -/
theorem session_override_counterexample :
    createServerSideProps { useSSG := false, useSession := true, prefetch := Prefetch.once }
        (fun _ => some { redirect := none, notFound := false,
                         props := some [("session", Val.null)] })
        { req := { url := none, session := none }, authSession := some 5, dehydrated := 0 }
      = SSRResult.props [("session", Val.session (some 5)), ("session", Val.null)] ∧
    sessionOf { useSSG := false, useSession := true, prefetch := Prefetch.once }
        { req := { url := none, session := none }, authSession := some 5, dehydrated := 0 }
      = some 5 ∧
    Obj.get [("session", Val.session (some 5)), ("session", Val.null)] "session"
      = some Val.null ∧
    some Val.null ≠ some (Val.session (some 5)) := by
  exact ⟨rfl, rfl, rfl, by decide⟩

/-- C8 (amended): the session is the one attached to the request when
present, else the session resolver's result when `useSession` is set, else
null; and whenever the handler returns a props object and the resolver's
own props do not bind the `session` key, the props object contains exactly
this session value (a resolver-supplied `session` binding would override
it, as the caller props are spread after it). -/
theorem session_resolution_and_merge (cfg : SSRConfig)
    (resolver : ResolverCtx → Option ResolverOut) (input : SSRInput) :
    (∀ s, input.req.session = some s → sessionOf cfg input = some s) ∧
    (input.req.session = none → cfg.useSession = true →
      sessionOf cfg input = input.authSession) ∧
    (input.req.session = none → cfg.useSession = false →
      sessionOf cfg input = none) ∧
    (∀ p, createServerSideProps cfg resolver input = SSRResult.props p →
      Obj.get (callerProps (resolver (resolverCtxOf cfg input))) "session" = none →
      Obj.get p "session" = some (Val.session (sessionOf cfg input))) := by
  refine ⟨?_, ?_, ?_, ?_⟩
  · intro s hs
    simp [sessionOf, hs]
  · intro h1 h2
    simp [sessionOf, h1, h2]
  · intro h1 h2
    simp [sessionOf, h1, h2]
  · intro p hp hnone
    cases hres : resolver (resolverCtxOf cfg input) with
    | none =>
        rw [createServerSideProps, hres] at hp
        cases hp
        exact mergedProps_get_session _ _ none rfl
    | some r =>
        rw [createServerSideProps, hres] at hp
        rw [hres] at hnone
        cases hrd : r.redirect with
        | some rd =>
            simp [hrd] at hp
        | none =>
            cases hnf : r.notFound with
            | true =>
                simp [hrd, hnf] at hp
            | false =>
                simp [hrd, hnf] at hp
                rw [← hp]
                exact mergedProps_get_session _ _ r.props hnone

/-- C8 witness: a request with an attached session 7 keeps it, and with a
void resolver the returned props bind exactly that session. -/
theorem session_resolution_and_merge_witness :
    sessionOf { useSSG := false, useSession := true, prefetch := Prefetch.once }
        { req := { url := none, session := some 7 }, authSession := some 5, dehydrated := 0 }
      = some 7 ∧
    Obj.get [("session", Val.session (some 7))] "session"
      = some (Val.session (some 7)) := by
  constructor
  · exact (session_resolution_and_merge
        { useSSG := false, useSession := true, prefetch := Prefetch.once }
        (fun _ => none)
        { req := { url := none, session := some 7 }, authSession := some 5,
          dehydrated := 0 }).1 7 rfl
  · exact (session_resolution_and_merge
        { useSSG := false, useSession := true, prefetch := Prefetch.once }
        (fun _ => none)
        { req := { url := none, session := some 7 }, authSession := some 5,
          dehydrated := 0 }).2.2.2 [("session", Val.session (some 7))] rfl rfl

/-- C9: a void resolver result still yields a successful props result:
the merged object binds the resolved session, and the serialized snapshot
under the reserved `trpcState` key whenever a prefetch context was built. -/
theorem void_resolver_still_succeeds (cfg : SSRConfig)
    (resolver : ResolverCtx → Option ResolverOut) (input : SSRInput)
    (h : resolver (resolverCtxOf cfg input) = none) :
    createServerSideProps cfg resolver input
      = SSRResult.props (mergedProps (sessionOf cfg input) (builtSsg cfg input) none) ∧
    Obj.get (mergedProps (sessionOf cfg input) (builtSsg cfg input) none) "session"
      = some (Val.session (sessionOf cfg input)) ∧
    (∀ d, builtSsg cfg input = some d →
      Obj.get (mergedProps (sessionOf cfg input) (builtSsg cfg input) none) "trpcState"
        = some (Val.snapshot d)) := by
  refine ⟨?_, mergedProps_get_session _ _ none rfl, ?_⟩
  · rw [createServerSideProps, h]
  · intro d hd
    rw [hd]
    exact mergedProps_get_snap _ d none

/-- C9 witness: a void resolver with `useSSG` on a non-client request
yields props binding the (null) session and snapshot 3. -/
theorem void_resolver_still_succeeds_witness :
    createServerSideProps { useSSG := true, useSession := false, prefetch := Prefetch.once }
        (fun _ => none)
        { req := { url := none, session := none }, authSession := none, dehydrated := 3 }
      = SSRResult.props [("session", Val.session none), ("trpcState", Val.snapshot 3)] ∧
    Obj.get [("session", Val.session none), ("trpcState", Val.snapshot 3)] "trpcState"
      = some (Val.snapshot 3) := by
  constructor
  · exact (void_resolver_still_succeeds
        { useSSG := true, useSession := false, prefetch := Prefetch.once }
        (fun _ => none)
        { req := { url := none, session := none }, authSession := none,
          dehydrated := 3 } rfl).1
  · exact (void_resolver_still_succeeds
        { useSSG := true, useSession := false, prefetch := Prefetch.once }
        (fun _ => none)
        { req := { url := none, session := none }, authSession := none,
          dehydrated := 3 } rfl).2.2 3 rfl

end SSR

namespace Sitemap

/-- An article row as consumed by the sitemap page: id, title, and an
optional published timestamp (timestamps modelled as ISO strings). -/
structure Article where
  id : Nat
  title : String
  publishedAt : Option String
  deriving Repr, DecidableEq

/-- The shape of a `getArticles` result: `{ items }`. -/
structure ArticlesData where
  items : List Article
  deriving Repr, DecidableEq

/-- One `ISitemapField`: location and last-modified timestamp. -/
structure SitemapField where
  loc : String
  lastmod : String
  deriving Repr, DecidableEq

/-- `getServerSideProps` of the articles sitemap page: awaits the articles
query with `.catch(() => ({ items: [] }))`, maps each item to a sitemap
field (`loc` from the base url, id and slugged title; `lastmod` from
`publishedAt` or the current time), and hands the fields to the sitemap
serializer — modelled as the list of fields of the produced sitemap.
`getBaseUrl`, `slugit` and the current time are external inputs. -/
def getServerSideProps (baseUrl : String) (slugit : String → String) (now : String)
    (articlesQuery : Except String ArticlesData) : List SitemapField :=
  let data :=
    match articlesQuery with
    | Except.ok d => d
    | Except.error _ => { items := [] }
  data.items.map (fun a =>
    { loc := baseUrl ++ "/articles/" ++ toString a.id ++ "/" ++ slugit a.title,
      lastmod := a.publishedAt.getD now })

/-- C10: when the articles query rejects, the failure does not propagate —
the handler substitutes an empty item list and still produces a sitemap
result with zero entries, whatever the error was. -/
theorem articlesQuery_failure_yields_empty_sitemap (baseUrl : String)
    (slugit : String → String) (now : String) (e : String) :
    getServerSideProps baseUrl slugit now (Except.error e) = [] := rfl

end Sitemap
